import Mathlib

/-!
Shallow embedding of the job-lifecycle, report-aggregation, notification and
reminder logic of `src/app.py` (a Streamlit field-service job board), together
with theorems settling the specification claims about it.

Conventions of the embedding:
* Python dicts for techs, locations, jobs and reports become structures; dict
  key absence (for example a location without a `lat` key) becomes `Option`.
* Python string truthiness (`if s:`) is modelled as `s = ""` tests, and
  `str.startswith` as a character-list prefix test (`pyStartsWith`).
* The SMTP transport, geocoder and AI-summary collaborators are modelled as
  oracle parameters (`Bool` flags, `Nat → Bool` per-send outcomes, an
  abstract geocoder result); an exception raised by a collaborator call is
  modelled by the corresponding oracle returning `false`, after which the
  embedding follows the source's `try/except` control flow.
* Coordinates (Python floats) are modelled as `Int`; the only property that
  matters to the claims is Python float truthiness, i.e. comparison with `0`.
-/

namespace FiveGJobs

/-- Models Python `s.startswith(pre)` as a prefix test on the character data. -/
def pyStartsWith (s pre : String) : Bool := pre.data.isPrefixOf s.data

/-- The briefing-invalidation sentinel written whenever job data changes
(`st.session_state.briefing = "Data required to generate briefing."`). -/
def staleBriefing : String := "Data required to generate briefing."

/-- A technician record (`{'id': ..., 'name': ..., 'email': ...}`);
fields not used by the claims are omitted. -/
structure Tech where
  tid : String
  name : String
  email : String
deriving DecidableEq

/-- A location record; `lat`/`lng` are `Option` because the Python dict may
lack those keys (`'lat' not in loc`). -/
structure Location where
  lid : String
  name : String
  address : String
  lat : Option Int
  lng : Option Int
deriving DecidableEq

/-- A report dict as constructed by the progress / daily-report forms.
`completionChecklist`, `signaturePath` and `aiSummary` are keys that only the
completion-confirmation path may add. -/
structure Report where
  rid : String
  techId : String
  timestamp : String
  content : String
  photos : List String
  techsOnSite : String
  timeArrived : String
  timeDeparted : String
  hoursWorked : String
  partsUsed : String
  billableItems : String
  completionChecklist : List String := []
  signaturePath : Option String := none
  aiSummary : Option String := none
deriving DecidableEq

/-- A job dict (`add_job_dialog` creation shape). `techId = none` models the
"Unassigned" `None` value. -/
structure Job where
  jid : String
  title : String
  description : String
  jtype : String
  priority : String
  status : String
  locationId : String
  techId : Option String
  date : String
  reports : List Report
deriving DecidableEq

/-- The persisted aggregate document / session state
(`jobs`, `techs`, `locations`, `briefing`, `adminEmails`, `last_reminder_date`). -/
structure AppState where
  jobs : List Job
  techs : List Tech
  locations : List Location
  briefing : String
  adminEmails : List String
  lastReminderDate : Option String
deriving DecidableEq

/-- `get_tech`: first technician with the given id, else `None`. -/
def getTech (techs : List Tech) (tid : String) : Option Tech :=
  techs.find? (fun t => t.tid == tid)

/-- `get_location`: first location with the given id, else `None`. -/
def getLocation (locs : List Location) (lid : String) : Option Location :=
  locs.find? (fun l => l.lid == lid)

/-- The resolved SMTP configuration (`SMTP_SERVER`, `SMTP_PORT`, `SMTP_EMAIL`,
`SMTP_PASSWORD` after the session > secrets > environment lookup). An empty
string field is a falsy/unset value, matching the Python truthiness check. -/
structure SMTPConfig where
  server : String
  port : Nat
  email : String
  password : String
deriving DecidableEq

/-- The two connection modes: `smtplib.SMTP_SSL` (implicit TLS) versus
`smtplib.SMTP` followed by `starttls()`. -/
inductive ConnMode where
  | ssl
  | starttls
deriving DecidableEq

/-! ## Report aggregation (daily-report tab of `job_details_dialog`) -/

/-- `is_full_report = r.get('hoursWorked') or r.get('techsOnSite')`: the code
classifies a report as a full daily report by truthiness of exactly these two
structured fields. -/
def isFullReport (r : Report) : Bool :=
  !(r.hoursWorked == "") || !(r.techsOnSite == "")

/-- The body of the `todays_photos` accumulation loop, with the accumulator
threaded explicitly: for each report in history order, if its timestamp
starts with today's date string and its photo list is truthy (non-empty),
and it is not a full daily report, extend the accumulator with its photos. -/
def todaysPhotosAux (today : String) (acc : List String) :
    List Report → List String
  | [] => acc
  | r :: rs =>
    if pyStartsWith r.timestamp today && !r.photos.isEmpty then
      if isFullReport r then todaysPhotosAux today acc rs
      else todaysPhotosAux today (acc ++ r.photos) rs
    else todaysPhotosAux today acc rs

/-- The `todays_photos` list computed by the daily-report tab: the loop above
started from the empty list. -/
def todaysPhotos (today : String) (reports : List Report) : List String :=
  todaysPhotosAux today [] reports

/-- Spec-side predicate, following the spec's words: a progress-type report is
one whose six structured fields are all empty. Used only to compare the
spec's aggregation rule with the code's (`isFullReport`). -/
def specIsProgress (r : Report) : Bool :=
  r.techsOnSite == "" && r.timeArrived == "" && r.timeDeparted == "" &&
  r.hoursWorked == "" && r.partsUsed == "" && r.billableItems == ""

/-- Spec-side aggregation, following the spec's words: concatenate, in
chronological order, the photos of today's reports whose structured fields are
all empty. -/
def specTodaysPhotos (today : String) (reports : List Report) : List String :=
  ((reports.filter fun r => pyStartsWith r.timestamp today && specIsProgress r).map
    Report.photos).flatten

/-- Filter-and-concatenate form of the code's aggregation rule: photos of
today's reports that are not full daily reports (`isFullReport = false`). -/
def progressPhotosToday (today : String) (reports : List Report) : List String :=
  ((reports.filter fun r => pyStartsWith r.timestamp today && !(isFullReport r)).map
    Report.photos).flatten

/-! ## Daily report submission and two-phase completion -/

/-- The structured form inputs of the daily-report tab, already rendered to
the strings the handler stores (`", ".join(...)`, `str(time)`, `str(hours)`). -/
structure DailyForm where
  content : String
  techsOnSite : String
  timeArrived : String
  timeDeparted : String
  hoursWorked : String
  partsUsed : String
  billableItems : String
deriving DecidableEq

/-- The `report_payload` dict built by the daily-report submit handler: its
photo list is the aggregation of today's progress photos. -/
def mkDailyPayload (job : Job) (today rid ts : String) (f : DailyForm) : Report :=
  { rid := rid
    techId := job.techId.getD "unknown"
    timestamp := ts
    content := f.content
    photos := todaysPhotos today job.reports
    techsOnSite := f.techsOnSite
    timeArrived := f.timeArrived
    timeDeparted := f.timeDeparted
    hoursWorked := f.hoursWorked
    partsUsed := f.partsUsed
    billableItems := f.billableItems }

/-- The daily-report submit branch: on `newStatus = "Completed"` the job and
briefing are untouched and the payload is parked as the pending-completion
token; otherwise the payload is appended and, when the status changed, the
status is written and the briefing invalidated. Returns
(job, briefing, pending token). -/
def submitDailyReport (job : Job) (briefing : String) (payload : Report)
    (newStatus : String) : Job × String × Option Report :=
  if newStatus = "Completed" then
    (job, briefing, some payload)
  else
    let job1 : Job := { job with reports := job.reports ++ [payload] }
    if newStatus ≠ job.status then
      ({ job1 with status := newStatus }, staleBriefing, none)
    else
      (job1, briefing, none)

/-- The confirm branch of `render_completion_confirmation`: the pending
payload gains the signature path (when one was captured), the checklist, the
closing note appended to its content, and the AI summary (generated only when
the content is non-empty); the finalized report is appended to history, the
status is set to Completed and the briefing invalidated. Returns
(job, briefing, finalized report). -/
def confirmCompletion (job : Job) (payload : Report) (checklist : List String)
    (sigPath : Option String) (finalNote : String) (summary : Option String) :
    Job × String × Report :=
  let p1 : Report :=
    { payload with
      signaturePath := match sigPath with
        | some p => some p
        | none => payload.signaturePath
      completionChecklist := checklist
      content :=
        if finalNote ≠ "" then
          payload.content ++ "\n\n[Closing Note]: " ++ finalNote
        else payload.content }
  let p2 : Report :=
    if p1.content ≠ "" then
      { p1 with aiSummary := match summary with
          | some s => some s
          | none => p1.aiSummary }
    else p1
  ({ job with reports := job.reports ++ [p2], status := "Completed" },
   staleBriefing, p2)

/-! ## Progress updates -/

/-- The single error kind of the input-validation paths. -/
inductive VError where
  | validation
deriving DecidableEq

/-- The in-progress tab submit handler: with both note and photos empty it
only warns (no mutation, modelled as `Except.error`); otherwise it appends a
report with all structured fields empty and, when the job was Pending, sets
the status to In Progress and invalidates the briefing. Returns
(job, briefing). -/
def postProgress (job : Job) (briefing : String) (note : String)
    (photos : List String) (rid ts : String) : Except VError (Job × String) :=
  if note ≠ "" ∨ photos ≠ [] then
    let payload : Report :=
      { rid := rid
        techId := job.techId.getD "unknown"
        timestamp := ts
        content := note
        photos := photos
        techsOnSite := ""
        timeArrived := ""
        timeDeparted := ""
        hoursWorked := ""
        partsUsed := ""
        billableItems := "" }
    let job1 : Job := { job with reports := job.reports ++ [payload] }
    if job.status = "Pending" then
      Except.ok ({ job1 with status := "In Progress" }, staleBriefing)
    else
      Except.ok (job1, briefing)
  else
    Except.error VError.validation

/-! ## Notification dispatch -/

/-- Result of `send_assignment_email`: which connection mode was attempted
(`none` when the transport is unconfigured and no connection happens) and the
returned success flag. `transportOk = false` models any exception raised while
connecting, logging in or sending; the `except` clause turns it into a plain
`False` return. -/
structure AssignSendRun where
  connMode : Option ConnMode
  success : Bool
deriving DecidableEq

/-- `send_assignment_email`: unconfigured transport returns `False` without
connecting; otherwise the port picks SSL (465) or STARTTLS (any other port)
and the caught-exception oracle decides the outcome. -/
def sendAssignmentEmail (cfg : SMTPConfig) (transportOk : Bool) : AssignSendRun :=
  if cfg.server = "" ∨ cfg.email = "" ∨ cfg.password = "" then
    ⟨none, false⟩
  else
    let mode := if cfg.port = 465 then ConnMode.ssl else ConnMode.starttls
    ⟨some mode, transportOk⟩

/-- The per-recipient send loop of `send_completion_email` over one open
connection: sends succeed until the oracle first returns `false`, at which
point the raised exception aborts the remaining recipients. Returns
(recipients actually sent to, completed without exception). -/
def completionLoop (sendOk : Nat → Bool) : List String → Nat → List String × Bool
  | [], _ => ([], true)
  | r :: rs, k =>
    if sendOk k then
      let rest := completionLoop sendOk rs (k + 1)
      (r :: rest.1, rest.2)
    else ([], false)

/-- Result of `send_completion_email`: attempted connection mode, recipients
sent to, and the attachment bytes used (unchanged pass-through of the PDF
generator's output, `none` when ReportLab is unavailable). -/
structure CompletionSendRun where
  connMode : Option ConnMode
  sentTo : List String
  attachment : Option String
deriving DecidableEq

/-- `send_completion_email`: no-op on an empty admin-recipient list, no-op on
an unconfigured transport; otherwise connect once with the port-selected mode,
log in and send one message per recipient. -/
def sendCompletionEmail (cfg : SMTPConfig) (recipients : List String)
    (pdfBytes : Option String) (connectOk loginOk : Bool) (sendOk : Nat → Bool) :
    CompletionSendRun :=
  if recipients = [] then ⟨none, [], pdfBytes⟩
  else if cfg.server = "" ∨ cfg.email = "" ∨ cfg.password = "" then
    ⟨none, [], pdfBytes⟩
  else
    let mode := if cfg.port = 465 then ConnMode.ssl else ConnMode.starttls
    if connectOk then
      if loginOk then ⟨some mode, (completionLoop sendOk recipients 0).1, pdfBytes⟩
      else ⟨some mode, [], pdfBytes⟩
    else ⟨some mode, [], pdfBytes⟩

/-! ## Job creation -/

/-- The validated inputs of the new-job form (the handler only runs with a
non-empty title). -/
structure NewJobForm where
  title : String
  description : String
  jtype : String
  priority : String
  locationId : String
  techId : Option String
  date : String
deriving DecidableEq

/-- The `new_job` dict built by `add_job_dialog`. -/
def mkNewJob (f : NewJobForm) (jid : String) : Job :=
  { jid := jid
    title := f.title
    description := f.description
    jtype := f.jtype
    priority := f.priority
    status := "Pending"
    locationId := f.locationId
    techId := f.techId
    date := f.date
    reports := [] }

/-- `add_job_dialog` submit handler: insert the new job at the front of the
collection, then (for an assigned tech that resolves together with the
location) attempt the assignment email, downgrading a `False` result to the
manual-notify message; finally invalidate the briefing. Returns
(new state, manual-notify signal). -/
def createJob (st : AppState) (f : NewJobForm) (jid : String) (cfg : SMTPConfig)
    (transportOk : Bool) : AppState × Bool :=
  let newJob := mkNewJob f jid
  let st1 : AppState := { st with jobs := newJob :: st.jobs }
  let manualNotify :=
    match f.techId with
    | some tid =>
      match getTech st.techs tid, getLocation st.locations f.locationId with
      | some _, some _ => !(sendAssignmentEmail cfg transportOk).success
      | _, _ => false
    | none => false
  ({ st1 with briefing := staleBriefing }, manualNotify)

/-! ## Daily reminder scheduler (`send_daily_reminders`) -/

/-- The jobs the reminder considers active for a technician:
`j['techId'] == tech['id'] and j['status'] != 'Completed'`. -/
def activeJobsFor (jobs : List Job) (t : Tech) : List Job :=
  jobs.filter (fun j => j.techId == some t.tid && !(j.status == "Completed"))

/-- The per-technician send loop of `send_daily_reminders` over one open
connection: technicians without active jobs are skipped; each other
technician gets one send, and the first failing send raises out of the loop,
aborting every later technician. Returns (emails sent to, completed without
exception). -/
def reminderLoop (jobs : List Job) (sendOk : Nat → Bool) :
    List Tech → Nat → List String × Bool
  | [], _ => ([], true)
  | t :: ts, k =>
    if (activeJobsFor jobs t).isEmpty then reminderLoop jobs sendOk ts k
    else if sendOk k then
      let rest := reminderLoop jobs sendOk ts (k + 1)
      (t.email :: rest.1, rest.2)
    else ([], false)

/-- One invocation of `send_daily_reminders`: the resulting state, the
connection mode attempted (`none` when no transport connection was made),
the technician emails actually sent to, and whether the
`last_reminder_date` update plus `save_state` call were reached. -/
structure ReminderRun where
  state : AppState
  connMode : Option ConnMode
  sent : List String
  persisted : Bool
deriving DecidableEq

/-- The body of the `try` block of `send_daily_reminders`: connect with the
already-selected mode, log in, run the per-technician loop, `quit`, then
update `last_reminder_date` and `save_state`. The first failing transport
call raises, aborting everything after it — including the state update. -/
def reminderSendPhase (st : AppState) (today : String) (mode : ConnMode)
    (connectOk loginOk quitOk : Bool) (sendOk : Nat → Bool) : ReminderRun :=
  if connectOk then
    if loginOk then
      if (reminderLoop st.jobs sendOk st.techs 0).2 then
        if quitOk then
          ⟨{ st with lastReminderDate := some today }, some mode,
            (reminderLoop st.jobs sendOk st.techs 0).1, true⟩
        else ⟨st, some mode, (reminderLoop st.jobs sendOk st.techs 0).1, false⟩
      else ⟨st, some mode, (reminderLoop st.jobs sendOk st.techs 0).1, false⟩
    else ⟨st, some mode, [], false⟩
  else ⟨st, some mode, [], false⟩

/-- `send_daily_reminders`, with `now` split into its weekday
(0 = Monday … 6 = Sunday) and date string. The guards return in source
order: weekend, already-ran-today, unconfigured transport; then the port
selects the connection mode and the `try`-block send phase runs. -/
def sendDailyReminders (st : AppState) (weekday : Nat) (today : String)
    (cfg : SMTPConfig) (connectOk loginOk quitOk : Bool) (sendOk : Nat → Bool) :
    ReminderRun :=
  if weekday > 4 then ⟨st, none, [], false⟩
  else if st.lastReminderDate = some today then ⟨st, none, [], false⟩
  else if cfg.server = "" ∨ cfg.email = "" ∨ cfg.password = "" then
    ⟨st, none, [], false⟩
  else
    reminderSendPhase st today
      (if cfg.port = 465 then ConnMode.ssl else ConnMode.starttls)
      connectOk loginOk quitOk sendOk

/-! ## Geocode cache (map rendering loop in `main`) -/

/-- Outcome of one `get_coordinates` call: either coordinates parsed from the
first Nominatim hit, or the `(None, None)` no-match/error result. -/
inductive GeoResult where
  | found (lat lon : Int)
  | notFound
deriving DecidableEq

/-- Result of resolving one location for the map: the (possibly updated)
location record, the coordinates used (`none` when the location is skipped),
whether the write-through `need_save` flag was raised, and how many geocoder
calls were made. -/
structure ResolveRun where
  loc : Location
  coords : Option (Int × Int)
  needSave : Bool
  geocoderCalls : Nat
deriving DecidableEq

/-- The per-location resolution step of the map loop: a location that already
carries both coordinate keys is used as-is with no geocoder call; otherwise
`get_coordinates` is called once and, when both returned values are truthy
(non-zero, non-`None`), they are written onto the location record; otherwise
the location is skipped. -/
def resolveLocation (loc : Location) (geo : GeoResult) : ResolveRun :=
  match loc.lat, loc.lng with
  | some la, some ln => ⟨loc, some (la, ln), false, 0⟩
  | _, _ =>
    match geo with
    | GeoResult.found la ln =>
      if la ≠ 0 ∧ ln ≠ 0 then
        ⟨{ loc with lat := some la, lng := some ln }, some (la, ln), true, 1⟩
      else ⟨loc, none, false, 1⟩
    | GeoResult.notFound => ⟨loc, none, false, 1⟩

/-! ## Admin-email management (`render_admin_panel`) -/

/-- The remove-admin button handler: removal of the first occurrence of the
email is performed only when more than one admin email remains, otherwise the
request is refused with an error. Returns (list, removed?). -/
def removeAdmin (emails : List String) (email : String) : List String × Bool :=
  if emails.length > 1 then (emails.erase email, true)
  else (emails, false)

/-! ## Concrete sample data (used by witnesses and counterexamples) -/

/-- A technician sample. -/
def techOne : Tech := ⟨"T1", "Tech One", "tech.one@example.com"⟩

/-- A second technician sample. -/
def techTwo : Tech := ⟨"T2", "Tech Two", "tech.two@example.com"⟩

/-- A pending job assigned to `techOne`. -/
def jobOne : Job :=
  ⟨"j100", "Install cameras", "front gate", "Service", "Medium", "Pending",
    "L1", some "T1", "2025-06-02T08:00:00", []⟩

/-- A pending job assigned to `techTwo`. -/
def jobTwo : Job := { jobOne with jid := "j101", techId := some "T2" }

/-- A configured transport on the STARTTLS port. -/
def cfgStarttls : SMTPConfig :=
  ⟨"smtp.example.com", 587, "board@example.com", "hunter2"⟩

/-- A configured transport on the implicit-TLS port. -/
def cfgSsl : SMTPConfig :=
  ⟨"smtp.example.com", 465, "board@example.com", "hunter2"⟩

/-- An unconfigured transport (empty server and credentials). -/
def cfgUnset : SMTPConfig := ⟨"", 587, "", ""⟩

/-- Two technicians, each with one active job, reminders never sent. -/
def stTwoTechs : AppState :=
  ⟨[jobOne, jobTwo], [techOne, techTwo], [], "briefing",
    ["admin@example.com"], none⟩

/-- One technician with one active job, reminders never sent. -/
def stOneTech : AppState :=
  ⟨[jobOne], [techOne], [], "briefing", ["admin@example.com"], none⟩

/-- One technician with no jobs at all, reminders never sent. -/
def stNoActive : AppState :=
  ⟨[], [techOne], [], "briefing", ["admin@example.com"], none⟩

/-- A today's report carrying one photo whose only populated structured field
is `partsUsed` — not a progress update by the spec's all-six-fields reading,
yet aggregated by the code, which tests only `hoursWorked`/`techsOnSite`. -/
def photoOnlyPartsReport : Report :=
  { rid := "r1", techId := "T1", timestamp := "2025-06-02T09:00:00",
    content := "", photos := ["photo1.jpg"], techsOnSite := "",
    timeArrived := "", timeDeparted := "", hoursWorked := "",
    partsUsed := "two bolts", billableItems := "" }

/-- `jobOne` with `photoOnlyPartsReport` in its history. -/
def jobParts : Job := { jobOne with reports := [photoOnlyPartsReport] }

/-- An empty daily-report form. -/
def emptyDailyForm : DailyForm := ⟨"", "", "", "", "", "", ""⟩

/-- A filled daily-report form. -/
def dailyFormA : DailyForm :=
  ⟨"All work done", "Tech One", "08:00:00", "17:00:00", "8.0", "", ""⟩

/-- A full daily report as the submit handler stores it (`hoursWorked` is
`str(hours)`, never empty). -/
def dailyReportEx : Report :=
  { rid := "r5", techId := "T1", timestamp := "2025-06-02T17:30:00",
    content := "done", photos := [], techsOnSite := "Tech One",
    timeArrived := "08:00:00", timeDeparted := "17:00:00",
    hoursWorked := "8.0", partsUsed := "", billableItems := "" }

/-- A location with cached coordinates. -/
def locCached : Location := ⟨"L1", "HQ", "1 Main St", some 33, some (-84)⟩

/-- A location without coordinates whose address geocodes to latitude 0. -/
def equatorLoc : Location := ⟨"L9", "Equator site", "Null Island", none, none⟩

/-- A state with one technician and one location, for job creation. -/
def stForCreate : AppState :=
  ⟨[], [techOne], [locCached], "briefing", ["admin@example.com"], none⟩

/-- A new-job form assigning `techOne` at `locCached`. -/
def formEx : NewJobForm :=
  ⟨"Install cameras", "front gate", "Service", "Medium", "L1", some "T1",
    "2025-06-02T08:00:00"⟩

/-! ## Helper lemmas -/

/-- The accumulator-threaded photo loop equals prepending the accumulator to
the filter-and-concatenate form. -/
lemma todaysPhotosAux_eq (today : String) (reports : List Report) :
    ∀ acc : List String,
      todaysPhotosAux today acc reports = acc ++ progressPhotosToday today reports := by
  induction reports with
  | nil => intro acc; simp [todaysPhotosAux, progressPhotosToday]
  | cons r rs ih =>
    intro acc
    by_cases h1 : pyStartsWith r.timestamp today
    · by_cases h3 : isFullReport r
      · by_cases h2 : r.photos.isEmpty <;>
          simp [todaysPhotosAux, h1, h2, h3, ih, progressPhotosToday]
      · by_cases h2 : r.photos.isEmpty
        · have hp : r.photos = [] := by simpa using h2
          simp [todaysPhotosAux, h1, h2, h3, ih, progressPhotosToday, hp]
        · simp [todaysPhotosAux, h1, h2, h3, ih, progressPhotosToday,
            List.append_assoc]
    · simp [todaysPhotosAux, h1, ih, progressPhotosToday]

/-- The code's photo aggregation is the filter-and-concatenate form. -/
lemma todaysPhotos_eq_concat (today : String) (reports : List Report) :
    todaysPhotos today reports = progressPhotosToday today reports := by
  simpa [todaysPhotos] using todaysPhotosAux_eq today reports []

/-- Appending a full daily report to the history leaves the aggregation
unchanged. -/
lemma todaysPhotos_append_full (today : String) (reports : List Report)
    (dp : Report) (h : isFullReport dp = true) :
    todaysPhotos today (reports ++ [dp]) = todaysPhotos today reports := by
  rw [todaysPhotos_eq_concat, todaysPhotos_eq_concat]
  unfold progressPhotosToday
  rw [List.filter_append]
  simp [h]

/-- With an all-success send oracle, the reminder loop emails exactly the
technicians that have at least one active job, in order, and completes. -/
lemma reminderLoop_all_ok (jobs : List Job) (ts : List Tech) (k : Nat) :
    reminderLoop jobs (fun _ => true) ts k =
      ((ts.filter fun t => !(activeJobsFor jobs t).isEmpty).map Tech.email, true) := by
  induction ts generalizing k with
  | nil => simp [reminderLoop]
  | cons t ts ih =>
    by_cases h : (activeJobsFor jobs t).isEmpty <;>
      simp [reminderLoop, h, ih]

/-- The send phase always records the connection mode it was given. -/
lemma phase_connMode (st : AppState) (today : String) (mode : ConnMode)
    (c l q : Bool) (s : Nat → Bool) :
    (reminderSendPhase st today mode c l q s).connMode = some mode := by
  unfold reminderSendPhase
  split_ifs <;> rfl

/-- If the send phase reached the state update, the whole phase succeeded and
the new state carries today's date. -/
lemma phase_persisted_run (st : AppState) (today : String) (mode : ConnMode)
    (c l q : Bool) (s : Nat → Bool)
    (h : (reminderSendPhase st today mode c l q s).persisted = true) :
    reminderSendPhase st today mode c l q s =
      ⟨{ st with lastReminderDate := some today }, some mode,
        (reminderLoop st.jobs s st.techs 0).1, true⟩ := by
  unfold reminderSendPhase at h ⊢
  split_ifs at h ⊢
  rfl

/-- If the send phase aborted before the state update, the state is
untouched. -/
lemma phase_frame (st : AppState) (today : String) (mode : ConnMode)
    (c l q : Bool) (s : Nat → Bool)
    (h : (reminderSendPhase st today mode c l q s).persisted = false) :
    (reminderSendPhase st today mode c l q s).state = st := by
  unfold reminderSendPhase at h ⊢
  split_ifs at h ⊢ <;> rfl

/-- A reminder run that persisted ran on a weekday and stamped today's
date into the state. -/
lemma reminders_persisted_char (st : AppState) (w : Nat) (today : String)
    (cfg : SMTPConfig) (c l q : Bool) (s : Nat → Bool)
    (h : (sendDailyReminders st w today cfg c l q s).persisted = true) :
    ¬ w > 4 ∧
    (sendDailyReminders st w today cfg c l q s).state.lastReminderDate
      = some today := by
  unfold sendDailyReminders at h ⊢
  by_cases hw : w > 4
  · rw [if_pos hw] at h; simp at h
  · rw [if_neg hw] at h ⊢
    by_cases hd : st.lastReminderDate = some today
    · rw [if_pos hd] at h; simp at h
    · rw [if_neg hd] at h ⊢
      by_cases hc : cfg.server = "" ∨ cfg.email = "" ∨ cfg.password = ""
      · rw [if_pos hc] at h; simp at h
      · rw [if_neg hc] at h ⊢
        rw [phase_persisted_run _ _ _ _ _ _ _ h]
        exact ⟨hw, rfl⟩

/-- The assignment sender's connection mode is `none` or the port-selected
mode. -/
lemma assign_connMode (cfg : SMTPConfig) (tOk : Bool) :
    (sendAssignmentEmail cfg tOk).connMode = none ∨
    (sendAssignmentEmail cfg tOk).connMode
      = some (if cfg.port = 465 then ConnMode.ssl else ConnMode.starttls) := by
  unfold sendAssignmentEmail
  split_ifs <;> simp

/-- The completion sender's connection mode is `none` or the port-selected
mode. -/
lemma completion_connMode (cfg : SMTPConfig) (recipients : List String)
    (pdf : Option String) (cOk lOk : Bool) (sOk : Nat → Bool) :
    (sendCompletionEmail cfg recipients pdf cOk lOk sOk).connMode = none ∨
    (sendCompletionEmail cfg recipients pdf cOk lOk sOk).connMode
      = some (if cfg.port = 465 then ConnMode.ssl else ConnMode.starttls) := by
  unfold sendCompletionEmail
  split_ifs <;> simp

/-- The reminder run's connection mode is `none` or the port-selected mode. -/
lemma reminders_connMode (st : AppState) (w : Nat) (d : String)
    (cfg : SMTPConfig) (cOk lOk qOk : Bool) (sOk : Nat → Bool) :
    (sendDailyReminders st w d cfg cOk lOk qOk sOk).connMode = none ∨
    (sendDailyReminders st w d cfg cOk lOk qOk sOk).connMode
      = some (if cfg.port = 465 then ConnMode.ssl else ConnMode.starttls) := by
  unfold sendDailyReminders
  split_ifs <;> first | simp | (right; exact phase_connMode _ _ _ _ _ _ _)

/-- The port-selected mode satisfies the bimodal rule. -/
lemma mode_iff (cfg : SMTPConfig) (m : ConnMode)
    (hm : (if cfg.port = 465 then ConnMode.ssl else ConnMode.starttls) = m) :
    (m = ConnMode.ssl ↔ cfg.port = 465) ∧
    (m = ConnMode.starttls ↔ cfg.port ≠ 465) := by
  by_cases hp : cfg.port = 465
  · rw [if_pos hp] at hm; subst hm; simp [hp]
  · rw [if_neg hp] at hm; subst hm; simp [hp]

/-- A location that resolved to coordinates on the map carries both
coordinate keys afterwards. -/
lemma resolve_coords_loc (loc : Location) (geo : GeoResult) (p : Int × Int)
    (hp : (resolveLocation loc geo).coords = some p) :
    (resolveLocation loc geo).loc.lat = some p.1 ∧
    (resolveLocation loc geo).loc.lng = some p.2 := by
  obtain ⟨lid, nm, ad, olat, olng⟩ := loc
  cases olat with
  | some a0 =>
    cases olng with
    | some b0 =>
      simp only [resolveLocation] at hp ⊢
      obtain rfl : (a0, b0) = p := by simpa using hp
      simp
    | none =>
      cases geo with
      | notFound => simp [resolveLocation] at hp
      | found la0 ln0 =>
        simp only [resolveLocation] at hp ⊢
        split_ifs at hp ⊢ with hz
        obtain rfl : (la0, ln0) = p := by simpa using hp
        simp
  | none =>
    cases geo with
    | notFound => cases olng <;> simp [resolveLocation] at hp
    | found la0 ln0 =>
      cases olng with
      | some b0 =>
        simp only [resolveLocation] at hp ⊢
        split_ifs at hp ⊢ with hz
        obtain rfl : (la0, ln0) = p := by simpa using hp
        simp
      | none =>
        simp only [resolveLocation] at hp ⊢
        split_ifs at hp ⊢ with hz
        obtain rfl : (la0, ln0) = p := by simpa using hp
        simp

/-- A location already carrying both coordinates is a pure cache hit. -/
lemma resolve_cache_hit (loc : Location) (geo : GeoResult) (a b : Int)
    (h1 : loc.lat = some a) (h2 : loc.lng = some b) :
    resolveLocation loc geo = ⟨loc, some (a, b), false, 0⟩ := by
  obtain ⟨lid, nm, ad, olat, olng⟩ := loc
  simp only at h1 h2
  subst h1
  subst h2
  rfl

/-- A cache miss with a geocode hit on two truthy coordinates writes both
through. -/
lemma resolve_miss_found (loc : Location) (la ln : Int)
    (hmiss : loc.lat = none ∨ loc.lng = none) (hla : la ≠ 0) (hln : ln ≠ 0) :
    resolveLocation loc (GeoResult.found la ln)
      = ⟨{ loc with lat := some la, lng := some ln }, some (la, ln), true, 1⟩ := by
  obtain ⟨lid, nm, ad, olat, olng⟩ := loc
  cases olat with
  | none => cases olng <;> simp [resolveLocation, hla, hln]
  | some a0 =>
    cases olng with
    | none => simp [resolveLocation, hla, hln]
    | some b0 => simp at hmiss

/-! ## Claim theorems -/

/-- C1: submitting a daily report with requested status Completed leaves the
job and the briefing untouched and only parks the payload as the pending
token; confirming the completion is what appends the (finalized) report to
the history and sets the status to Completed. -/
theorem submitCompleted_frame (job : Job) (b : String) (payload : Report)
    (checklist : List String) (sig : Option String) (note : String)
    (ai : Option String) :
    submitDailyReport job b payload "Completed" = (job, b, some payload) ∧
    (confirmCompletion job payload checklist sig note ai).1.status = "Completed" ∧
    (confirmCompletion job payload checklist sig note ai).1.reports
      = job.reports ++ [(confirmCompletion job payload checklist sig note ai).2.2] := by
  refine ⟨?_, rfl, rfl⟩
  simp [submitDailyReport]

/-- C2 counterexample: a today's report whose only populated structured field
is `partsUsed` has its photo aggregated by the code, while the spec's
all-six-structured-fields-empty filter excludes it, so the claimed photo list
differs from the composed one. -/
theorem dailyPhotos_spec_counterexample :
    (mkDailyPayload jobParts "2025-06-02" "r7" "2025-06-02T17:00:00"
        emptyDailyForm).photos = ["photo1.jpg"] ∧
    specTodaysPhotos "2025-06-02" jobParts.reports = [] := by
  exact ⟨rfl, rfl⟩

/-- C2 (amended): the photo list of a newly composed daily report equals the
concatenation, in insertion order, of the photo lists of exactly those
reports in the job's history made today whose `hoursWorked` and `techsOnSite`
fields are both empty (the code tests only these two structured fields); the
sources are not deleted or marked, so after a full daily report is appended
the same photos are re-aggregated by the next composition. -/
theorem dailyPhotos_amended (today : String) (job : Job)
    (rid ts rid2 ts2 : String) (f g : DailyForm) (dp : Report)
    (h : isFullReport dp = true) :
    (mkDailyPayload job today rid ts f).photos
      = progressPhotosToday today job.reports ∧
    (mkDailyPayload { job with reports := job.reports ++ [dp] } today rid2 ts2
        g).photos = (mkDailyPayload job today rid ts f).photos := by
  constructor
  · exact todaysPhotos_eq_concat today job.reports
  · show todaysPhotos today (job.reports ++ [dp]) = todaysPhotos today job.reports
    exact todaysPhotos_append_full today job.reports dp h

/-- C2 witness: composing a daily report right after a full daily report was
appended re-aggregates exactly the photos of the earlier composition. -/
theorem dailyPhotos_amended_witness :
    (mkDailyPayload { jobParts with reports := jobParts.reports ++ [dailyReportEx] }
        "2025-06-02" "r8" "2025-06-02T18:00:00" dailyFormA).photos
      = (mkDailyPayload jobParts "2025-06-02" "r7" "2025-06-02T17:00:00"
          emptyDailyForm).photos :=
  (dailyPhotos_amended "2025-06-02" jobParts "r7" "2025-06-02T17:00:00" "r8"
    "2025-06-02T18:00:00" emptyDailyForm dailyFormA dailyReportEx rfl).2

/-- C3 counterexample: on a weekday, with the transport configured and the
reminder not yet sent today, a failing first send aborts the whole batch —
`techTwo` has an active job but no send happens at all, and
`lastReminderDate` is left unset instead of being stamped. -/
theorem reminders_abort_counterexample :
    (sendDailyReminders stTwoTechs 0 "2025-06-02" cfgStarttls true true true
        (fun _ => false)).sent = [] ∧
    (sendDailyReminders stTwoTechs 0 "2025-06-02" cfgStarttls true true true
        (fun _ => false)).persisted = false ∧
    (sendDailyReminders stTwoTechs 0 "2025-06-02" cfgStarttls true true true
        (fun _ => false)).state.lastReminderDate = none ∧
    (activeJobsFor stTwoTechs.jobs techTwo).isEmpty = false := by
  exact ⟨rfl, rfl, rfl, rfl⟩

/-- C3 (amended): on a weekday with the transport configured and
lastReminderDate ≠ today, the run attempts one send per technician with a
non-Completed job, in order, until the first transport failure; when every
transport call succeeds it sends to exactly those technicians and then sets
lastReminderDate = today and persists — including when zero technicians had
any non-Completed job — while any run that aborts before the update leaves
the state unchanged. -/
theorem reminders_amended (st : AppState) (w : Nat) (today : String)
    (cfg : SMTPConfig) (c l q : Bool) (s : Nat → Bool)
    (h1 : ¬ w > 4) (h2 : st.lastReminderDate ≠ some today)
    (h3 : ¬ (cfg.server = "" ∨ cfg.email = "" ∨ cfg.password = "")) :
    (sendDailyReminders st w today cfg true true true (fun _ => true)).sent
      = (st.techs.filter fun t => !(activeJobsFor st.jobs t).isEmpty).map
          Tech.email ∧
    (sendDailyReminders st w today cfg true true true
        (fun _ => true)).state.lastReminderDate = some today ∧
    (sendDailyReminders st w today cfg true true true
        (fun _ => true)).persisted = true ∧
    ((sendDailyReminders st w today cfg c l q s).persisted = false →
      (sendDailyReminders st w today cfg c l q s).state = st) := by
  have hmain : sendDailyReminders st w today cfg true true true (fun _ => true) =
      ⟨{ st with lastReminderDate := some today },
        some (if cfg.port = 465 then ConnMode.ssl else ConnMode.starttls),
        (st.techs.filter fun t => !(activeJobsFor st.jobs t).isEmpty).map
          Tech.email,
        true⟩ := by
    unfold sendDailyReminders reminderSendPhase
    rw [if_neg h1, if_neg h2, if_neg h3]
    simp [reminderLoop_all_ok]
  refine ⟨by rw [hmain], by rw [hmain], by rw [hmain], ?_⟩
  intro hp
  unfold sendDailyReminders at hp ⊢
  by_cases hw : w > 4
  · rw [if_pos hw]
  · rw [if_neg hw] at hp ⊢
    by_cases hd : st.lastReminderDate = some today
    · rw [if_pos hd]
    · rw [if_neg hd] at hp ⊢
      by_cases hc : cfg.server = "" ∨ cfg.email = "" ∨ cfg.password = ""
      · rw [if_pos hc]
      · rw [if_neg hc] at hp ⊢
        exact phase_frame _ _ _ _ _ _ _ hp

/-- C3 witness: with one technician who has no jobs, an all-success run sends
nothing, still stamps today's date and persists. -/
theorem reminders_amended_witness :
    (sendDailyReminders stNoActive 0 "2025-06-02" cfgStarttls true true true
        (fun _ => true)).sent = [] ∧
    (sendDailyReminders stNoActive 0 "2025-06-02" cfgStarttls true true true
        (fun _ => true)).state.lastReminderDate = some "2025-06-02" ∧
    (sendDailyReminders stNoActive 0 "2025-06-02" cfgStarttls true true true
        (fun _ => true)).persisted = true := by
  have h := reminders_amended stNoActive 0 "2025-06-02" cfgStarttls
    false false false (fun _ => false) (by decide) (by decide) (by decide)
  exact ⟨h.1, h.2.1, h.2.2.1⟩

/-- C4 counterexample: a first invocation that reaches the send phase but
fails its send does not stamp the date, so a second invocation on the same
day connects again and this time sends — the second call is not a no-op and
an email goes out after the first call already attempted one. -/
theorem reminders_retry_counterexample :
    (sendDailyReminders stOneTech 0 "2025-06-02" cfgStarttls true true true
        (fun _ => false)).connMode = some ConnMode.starttls ∧
    (sendDailyReminders
        (sendDailyReminders stOneTech 0 "2025-06-02" cfgStarttls true true true
          (fun _ => false)).state
        0 "2025-06-02" cfgStarttls true true true (fun _ => true)).connMode
      = some ConnMode.starttls ∧
    (sendDailyReminders
        (sendDailyReminders stOneTech 0 "2025-06-02" cfgStarttls true true true
          (fun _ => false)).state
        0 "2025-06-02" cfgStarttls true true true (fun _ => true)).sent
      = ["tech.one@example.com"] := by
  exact ⟨rfl, rfl, rfl⟩

/-- C4 (amended): after a first invocation whose send phase completed without
a transport error (the `last_reminder_date` update ran), every further
invocation on the same calendar day is a no-op: no transport connection, no
sends, no state change — regardless of the later invocation's configuration
and transport behavior. -/
theorem reminders_idempotent_amended (st : AppState) (w : Nat) (today : String)
    (cfg cfg2 : SMTPConfig) (c l q c2 l2 q2 : Bool) (s s2 : Nat → Bool)
    (h : (sendDailyReminders st w today cfg c l q s).persisted = true) :
    sendDailyReminders (sendDailyReminders st w today cfg c l q s).state
        w today cfg2 c2 l2 q2 s2
      = ⟨(sendDailyReminders st w today cfg c l q s).state, none, [], false⟩ := by
  obtain ⟨hw, hdate⟩ := reminders_persisted_char st w today cfg c l q s h
  generalize hst1 : (sendDailyReminders st w today cfg c l q s).state = st1 at hdate ⊢
  unfold sendDailyReminders
  rw [if_neg hw, if_pos hdate]

/-- C4 witness: after a fully successful Monday run, a second run on the same
day does not connect, sends nothing and changes nothing. -/
theorem reminders_idempotent_witness :
    sendDailyReminders
        (sendDailyReminders stOneTech 0 "2025-06-02" cfgStarttls true true true
          (fun _ => true)).state
        0 "2025-06-02" cfgStarttls true true true (fun _ => true)
      = ⟨(sendDailyReminders stOneTech 0 "2025-06-02" cfgStarttls true true true
          (fun _ => true)).state, none, [], false⟩ :=
  reminders_idempotent_amended stOneTech 0 "2025-06-02" cfgStarttls cfgStarttls
    true true true true true true (fun _ => true) (fun _ => true) (by rfl)

/-- C5: on a Saturday (weekday 5) or Sunday (weekday 6) `now`, the reminder
run makes no transport connection, sends nothing and leaves the state
unchanged, whatever `lastReminderDate` holds. -/
theorem reminders_weekend_noop (st : AppState) (today : String)
    (cfg : SMTPConfig) (c l q : Bool) (s : Nat → Bool) (w : Nat)
    (h : w = 5 ∨ w = 6) :
    sendDailyReminders st w today cfg c l q s = ⟨st, none, [], false⟩ := by
  rcases h with h | h <;> subst h <;> simp [sendDailyReminders]

/-- C5 witness: a Saturday run with a fully configured transport and
never-sent state is a structural no-op. -/
theorem reminders_weekend_witness :
    sendDailyReminders stOneTech 5 "2025-06-07" cfgStarttls true true true
        (fun _ => true)
      = ⟨stOneTech, none, [], false⟩ :=
  reminders_weekend_noop stOneTech "2025-06-07" cfgStarttls true true true
    (fun _ => true) 5 (Or.inl rfl)

/-- C6: creating a job with an assigned technician inserts the job at the
front of the collection for every transport configuration and outcome, and an
unconfigured transport or a failed send is downgraded to the manual-notify
signal rather than aborting the creation. -/
theorem createJob_inserts_despite_email (st : AppState) (f : NewJobForm)
    (jid : String) (cfg : SMTPConfig) (tOk : Bool) (tid : String) (t : Tech)
    (l : Location)
    (h1 : f.techId = some tid)
    (h2 : getTech st.techs tid = some t)
    (h3 : getLocation st.locations f.locationId = some l) :
    (createJob st f jid cfg tOk).1.jobs = mkNewJob f jid :: st.jobs ∧
    ((cfg.server = "" ∨ cfg.email = "" ∨ cfg.password = "" ∨ tOk = false) →
      (createJob st f jid cfg tOk).2 = true) := by
  constructor
  · rfl
  · intro hfail
    simp only [createJob, h1, h2, h3]
    unfold sendAssignmentEmail
    rcases hfail with h | h | h | h
    · simp [h]
    · by_cases hs : cfg.server = "" <;> simp [h, hs]
    · by_cases hs : cfg.server = "" <;> by_cases he : cfg.email = "" <;>
        simp [h, hs, he]
    · split_ifs <;> simp [h]

/-- C6 witness: with an unconfigured transport, the job is still inserted and
the manual-notify signal is raised. -/
theorem createJob_witness :
    (createJob stForCreate formEx "j1" cfgUnset true).1.jobs
      = mkNewJob formEx "j1" :: stForCreate.jobs ∧
    (createJob stForCreate formEx "j1" cfgUnset true).2 = true := by
  have h := createJob_inserts_despite_email stForCreate formEx "j1" cfgUnset
    true "T1" techOne locCached rfl rfl rfl
  exact ⟨h.1, h.2 (Or.inl rfl)⟩

/-- C7: whenever any of the three send operations (assignment, completion,
daily reminder) attempts a transport connection, the mode it connects with is
implicit TLS exactly when the configured port is 465, and STARTTLS exactly
when it is any other port. -/
theorem connection_mode_bimodal (cfg : SMTPConfig) (tOk cOk lOk qOk : Bool)
    (sOk : Nat → Bool) (recipients : List String) (pdf : Option String)
    (st : AppState) (w : Nat) (d : String) (m : ConnMode) :
    ((sendAssignmentEmail cfg tOk).connMode = some m →
      ((m = ConnMode.ssl ↔ cfg.port = 465) ∧
       (m = ConnMode.starttls ↔ cfg.port ≠ 465))) ∧
    ((sendCompletionEmail cfg recipients pdf cOk lOk sOk).connMode = some m →
      ((m = ConnMode.ssl ↔ cfg.port = 465) ∧
       (m = ConnMode.starttls ↔ cfg.port ≠ 465))) ∧
    ((sendDailyReminders st w d cfg cOk lOk qOk sOk).connMode = some m →
      ((m = ConnMode.ssl ↔ cfg.port = 465) ∧
       (m = ConnMode.starttls ↔ cfg.port ≠ 465))) := by
  refine ⟨?_, ?_, ?_⟩
  · intro h
    rcases assign_connMode cfg tOk with hc | hc
    · rw [hc] at h; exact absurd h (by simp)
    · rw [hc] at h
      exact mode_iff cfg m (Option.some.inj h.symm).symm
  · intro h
    rcases completion_connMode cfg recipients pdf cOk lOk sOk with hc | hc
    · rw [hc] at h; exact absurd h (by simp)
    · rw [hc] at h
      exact mode_iff cfg m (Option.some.inj h.symm).symm
  · intro h
    rcases reminders_connMode st w d cfg cOk lOk qOk sOk with hc | hc
    · rw [hc] at h; exact absurd h (by simp)
    · rw [hc] at h
      exact mode_iff cfg m (Option.some.inj h.symm).symm

/-- C7 witness: on port 465 the assignment sender connects with implicit
TLS, and that mode characterizes the port. -/
theorem connection_mode_witness :
    (ConnMode.ssl = ConnMode.ssl ↔ cfgSsl.port = 465) ∧
    (ConnMode.ssl = ConnMode.starttls ↔ cfgSsl.port ≠ 465) :=
  (connection_mode_bimodal cfgSsl true true true true (fun _ => true)
    ["admin@example.com"] none stOneTech 0 "2025-06-02" ConnMode.ssl).1 rfl

/-- C8: posting a progress update with an empty note and an empty photo list
fails validation (no mutation), while a non-empty note or photo list appends
exactly one report whose structured fields are all empty. -/
theorem postProgress_validation (job : Job) (b : String) (rid ts note : String)
    (photos : List String) :
    ((note = "" ∧ photos = []) →
      postProgress job b note photos rid ts = Except.error VError.validation) ∧
    ((note ≠ "" ∨ photos ≠ []) →
      ∃ j1 b1 r, postProgress job b note photos rid ts = Except.ok (j1, b1) ∧
        j1.reports = job.reports ++ [r] ∧ specIsProgress r = true ∧
        r.content = note ∧ r.photos = photos) := by
  constructor
  · rintro ⟨hn, hp⟩
    simp [postProgress, hn, hp]
  · intro h
    unfold postProgress
    rw [if_pos h]
    dsimp only
    split_ifs with hs
    · exact ⟨_, _, _, rfl, rfl, by simp [specIsProgress], rfl, rfl⟩
    · exact ⟨_, _, _, rfl, rfl, by simp [specIsProgress], rfl, rfl⟩

/-- C8 witness: the empty submission on a concrete job fails validation. -/
theorem postProgress_witness :
    postProgress jobOne "briefing" "" [] "r9" "2025-06-02T10:00:00"
      = Except.error VError.validation :=
  (postProgress_validation jobOne "briefing" "r9" "2025-06-02T10:00:00" ""
    []).1 ⟨rfl, rfl⟩

/-- C9 counterexample: a location without coordinates whose geocode succeeds
with latitude 0 (a truthy-check casualty) is not written through: the
location keeps no coordinates, nothing is saved, and the geocoder was
invoked. -/
theorem geocode_zero_counterexample :
    resolveLocation equatorLoc (GeoResult.found 0 5)
      = ⟨equatorLoc, none, false, 1⟩ := by
  decide

/-- C9 (amended): a location already carrying coordinates resolves to them
with zero geocoder calls; any resolution that returned coordinates leaves a
location that resolves again from cache with zero further calls; and a
cache-miss geocode returning two non-zero coordinates is written through to
the location record — a zero coordinate, being falsy, is treated as
unresolved and not persisted. -/
theorem geocode_cache_amended (loc : Location) (geo geo2 : GeoResult)
    (la ln a b : Int) :
    ((loc.lat = some a ∧ loc.lng = some b) →
      resolveLocation loc geo = ⟨loc, some (a, b), false, 0⟩) ∧
    (∀ p, (resolveLocation loc geo).coords = some p →
      resolveLocation (resolveLocation loc geo).loc geo2
        = ⟨(resolveLocation loc geo).loc, some p, false, 0⟩) ∧
    ((loc.lat = none ∨ loc.lng = none) → geo = GeoResult.found la ln →
      la ≠ 0 → ln ≠ 0 →
      resolveLocation loc geo =
        ⟨{ loc with lat := some la, lng := some ln }, some (la, ln), true, 1⟩) := by
  refine ⟨?_, ?_, ?_⟩
  · rintro ⟨hc1, hc2⟩
    exact resolve_cache_hit loc geo a b hc1 hc2
  · intro p hp
    obtain ⟨hc1, hc2⟩ := resolve_coords_loc loc geo p hp
    have hres := resolve_cache_hit (resolveLocation loc geo).loc geo2 p.1 p.2 hc1 hc2
    simpa using hres
  · intro hmiss hgeo hla hln
    subst hgeo
    exact resolve_miss_found loc la ln hmiss hla hln

/-- C9 witness: a location with cached coordinates resolves to them without
invoking the geocoder. -/
theorem geocode_cache_witness :
    resolveLocation locCached (GeoResult.found 7 9)
      = ⟨locCached, some (33, -84), false, 0⟩ :=
  (geocode_cache_amended locCached (GeoResult.found 7 9) GeoResult.notFound
    7 9 33 (-84)).1 ⟨rfl, rfl⟩

/-- C10: removing an admin email is refused (and the list unchanged) when only
one entry remains; removal succeeds exactly when more than one entry is
present, removing one occurrence, so the list can never become empty through
this operation. -/
theorem removeAdmin_guard (emails : List String) (email : String) :
    (emails.length = 1 → removeAdmin emails email = (emails, false)) ∧
    ((removeAdmin emails email).2 = true ↔ emails.length > 1) ∧
    (email ∈ emails → emails.length > 1 →
      (removeAdmin emails email).1.length = emails.length - 1) ∧
    (emails ≠ [] → (removeAdmin emails email).1 ≠ []) := by
  refine ⟨?_, ?_, ?_, ?_⟩
  · intro h; simp [removeAdmin, h]
  · constructor
    · intro h
      by_contra hc
      simp [removeAdmin, hc] at h
    · intro h; simp [removeAdmin, h]
  · intro hm hl
    simp [removeAdmin, hl]
    rw [List.length_erase_of_mem hm]
  · intro hne
    by_cases hl : emails.length > 1
    · simp only [removeAdmin, if_pos hl]
      intro hc
      have hlen := congrArg List.length hc
      rw [List.length_erase] at hlen
      simp at hlen
      split at hlen <;> omega
    · simp [removeAdmin, hl, hne]

/-- C10 witness: the sole admin entry cannot be removed. -/
theorem removeAdmin_witness :
    removeAdmin ["admin@example.com"] "admin@example.com"
      = (["admin@example.com"], false) :=
  (removeAdmin_guard ["admin@example.com"] "admin@example.com").1 rfl

end FiveGJobs
